import Mathlib

/-!
Verification of the laboratory QC fault-detection engine
(`advanced_fault_detection.py`, `realtime_qc_monitor.py`).

Measurements are embedded as `List ℚ` (Python floats are modelled exactly by
rationals; all constants occurring in the source are rational).  Python's
`abs`, `max` and `numpy.sign` are embedded as `pyabs`, `pymax`, `pysign`;
`numpy.median` as `npMedian` (sort ascending, middle element or mean of the
two middle elements); `numpy.diff` as `npDiff`.  Fallible code returns
`Except`.
-/

namespace LabQC

/-- `values[j]` of a series; out-of-range reads never occur in the guarded
uses below, the default is irrelevant. -/
def vAt (vs : List ℚ) (j : ℕ) : ℚ := vs.getD j 0

/-- Python `abs`. -/
def pyabs (q : ℚ) : ℚ := if q < 0 then -q else q

/-- Python `max` (two arguments). -/
def pymax (a b : ℚ) : ℚ := if a < b then b else a

/-- `numpy.sign`. -/
def pysign (q : ℚ) : ℤ := if 0 < q then 1 else if q < 0 then -1 else 0

/-- Insert into an ascending list (helper for `sortAsc`). -/
def insertSorted (x : ℚ) : List ℚ → List ℚ
  | [] => [x]
  | y :: ys => if x ≤ y then x :: y :: ys else y :: insertSorted x ys

/-- Ascending insertion sort (the sort underlying `numpy.median`). -/
def sortAsc : List ℚ → List ℚ
  | [] => []
  | x :: xs => insertSorted x (sortAsc xs)

/-- `numpy.median`: middle element of the sorted list, or the mean of the two
middle elements for even length. -/
def npMedian (l : List ℚ) : ℚ :=
  if l.length = 0 then 0
  else if l.length % 2 = 1 then vAt (sortAsc l) (l.length / 2)
  else (vAt (sortAsc l) (l.length / 2 - 1) + vAt (sortAsc l) (l.length / 2)) / 2

/-- `numpy.diff`: consecutive differences. -/
def npDiff (l : List ℚ) : List ℚ := List.zipWith (fun a b => b - a) l l.tail

/-- The trailing window `values[i+1-w : i+1]` (the `w` points ending at
index `i`), as read by the Westgard and run-rule checks. -/
def trailing (vs : List ℚ) (i w : ℕ) : List ℚ :=
  (List.range w).map (fun j => vAt vs (i + 1 - w + j))

/-- The window `values[i-w : i]` read by `trend_detection` (ends at `i-1`). -/
def windowData (vs : List ℚ) (i w : ℕ) : List ℚ :=
  (List.range w).map (fun j => vAt vs (i - w + j))

/-- Ordinary least-squares slope of `ys` against positions `0..len-1`
(the `slope` of `scipy.stats.linregress(x, window_data)`). -/
def olsSlope (ys : List ℚ) : ℚ :=
  let n : ℚ := ys.length
  let xs := (List.range ys.length).map (fun j => (j : ℚ))
  let xbar := xs.sum / n
  let ybar := ys.sum / n
  ((xs.zip ys).map (fun p => (p.1 - xbar) * (p.2 - ybar))).sum /
    ((xs.map (fun x => (x - xbar) ^ 2)).sum)

/-- The `sensitivity` argument of `AdvancedFaultDetector.__init__`
(`'high' | 'medium' | 'low'`). -/
inductive Sensitivity
  | high
  | medium
  | low
deriving DecidableEq

/-- The state stored by `AdvancedFaultDetector.__init__`.  The `thresholds`
lookup table keyed by sensitivity is stored by the source but never read by
any of the six detectors, so it is not modelled beyond the tier itself. -/
structure AdvancedFaultDetector where
  mean : ℚ
  std : ℚ
  sensitivity : Sensitivity
  cusum_k : ℚ
  cusum_h : ℚ
  ewma_lambda : ℚ
  ewma_L : ℚ
deriving DecidableEq

/-- `AdvancedFaultDetector.__init__(mean, std, sensitivity)`: stores the
parameters unchanged (the source performs no validation) together with the
fixed algorithm constants `cusum_k = 0.5`, `cusum_h = 4.0`,
`ewma_lambda = 0.2`, `ewma_L = 2.7`. -/
def mkDetector (mean std : ℚ) (sensitivity : Sensitivity) : AdvancedFaultDetector :=
  { mean := mean, std := std, sensitivity := sensitivity,
    cusum_k := 1/2, cusum_h := 4, ewma_lambda := 1/5, ewma_L := 27/10 }

/-- z-score of the value at index `j`: `(values[j] - mean) / std`. -/
def zscore (d : AdvancedFaultDetector) (vs : List ℚ) (j : ℕ) : ℚ :=
  (vAt vs j - d.mean) / d.std

/-- z-transform of a single value. -/
def zOf (d : AdvancedFaultDetector) (v : ℚ) : ℚ := (v - d.mean) / d.std

/-- A violation record emitted by `extended_westgard_rules` (the
`description` and `action` strings are presentation-only and omitted). -/
structure WViolation where
  index : ℕ
  rule : String
  severity : String
  z_score : ℚ
deriving DecidableEq

/-- The violations `extended_westgard_rules` emits during loop iteration `i`,
in the source's rule order 1-3s, 2-2s, R-4s, 4-1s, 10-x, 7-T, 8-x, 6-x. -/
def westgardAt (d : AdvancedFaultDetector) (vs : List ℚ) (i : ℕ) : List WViolation :=
  (if 3 < pyabs (zscore d vs i) then
    [⟨i, "1-3s", "CRITICAL", zscore d vs i⟩] else []) ++
  ((if 0 < i then
    (if 2 < pyabs (zscore d vs i) ∧ 2 < pyabs (zscore d vs (i-1)) ∧
        pysign (zscore d vs i) = pysign (zscore d vs (i-1)) then
      [⟨i, "2-2s", "CRITICAL", zscore d vs i⟩] else [])
   else []) ++
  ((if 0 < i then
    (if 4 * d.std < pyabs (vAt vs i - vAt vs (i-1)) then
      [⟨i, "R-4s", "CRITICAL", zscore d vs i⟩] else [])
   else []) ++
  ((if 3 ≤ i then
    (if (∀ q ∈ (trailing vs i 4).map (zOf d), 1 < q) ∨
        (∀ q ∈ (trailing vs i 4).map (zOf d), q < -1) then
      [⟨i, "4-1s", "WARNING", zscore d vs i⟩] else [])
   else []) ++
  ((if 9 ≤ i then
    (if (∀ v ∈ trailing vs i 10, d.mean < v) ∨ (∀ v ∈ trailing vs i 10, v < d.mean) then
      [⟨i, "10-x", "CRITICAL", zscore d vs i⟩] else [])
   else []) ++
  ((if 6 ≤ i then
    (if (∀ q ∈ npDiff (trailing vs i 7), 0 < q) ∨ (∀ q ∈ npDiff (trailing vs i 7), q < 0) then
      [⟨i, "7-T", "WARNING", zscore d vs i⟩] else [])
   else []) ++
  ((if 7 ≤ i then
    (if ∀ q ∈ (trailing vs i 8).map (zOf d), 1 < pyabs q then
      [⟨i, "8-x", "WARNING", zscore d vs i⟩] else [])
   else []) ++
  (if 5 ≤ i then
    (if (∀ q ∈ npDiff (trailing vs i 6), 0 < q) ∨ (∀ q ∈ npDiff (trailing vs i 6), q < 0) then
      [⟨i, "6-x", "WARNING", zscore d vs i⟩] else [])
   else [])))))))

/-- `AdvancedFaultDetector.extended_westgard_rules(values)`. -/
def extended_westgard_rules (d : AdvancedFaultDetector) (vs : List ℚ) : List WViolation :=
  (List.range vs.length).flatMap (westgardAt d vs)

/-- A CUSUM violation record. -/
structure CViolation where
  index : ℕ
  type : String
  severity : String
  value : ℚ
deriving DecidableEq

/-- The running positive CUSUM statistic:
`pos_0 = max(0, z_0 - k)`, `pos_i = max(0, pos_{i-1} + z_i - k)`. -/
def cusumPosF (d : AdvancedFaultDetector) (vs : List ℚ) : ℕ → ℚ
  | 0 => pymax 0 (zscore d vs 0 - d.cusum_k)
  | i + 1 => pymax 0 (cusumPosF d vs i + zscore d vs (i+1) - d.cusum_k)

/-- The running negative CUSUM statistic:
`neg_0 = max(0, -z_0 - k)`, `neg_i = max(0, neg_{i-1} - z_i - k)`. -/
def cusumNegF (d : AdvancedFaultDetector) (vs : List ℚ) : ℕ → ℚ
  | 0 => pymax 0 (-(zscore d vs 0) - d.cusum_k)
  | i + 1 => pymax 0 (cusumNegF d vs i - zscore d vs (i+1) - d.cusum_k)

/-- CUSUM violations emitted at loop iteration `i`. -/
def cusumAt (d : AdvancedFaultDetector) (vs : List ℚ) (i : ℕ) : List CViolation :=
  (if d.cusum_h < cusumPosF d vs i then
    [⟨i, "CUSUM_HIGH", "CRITICAL", cusumPosF d vs i⟩] else []) ++
  (if d.cusum_h < cusumNegF d vs i then
    [⟨i, "CUSUM_LOW", "CRITICAL", cusumNegF d vs i⟩] else [])

/-- Result of `cusum_detection`. -/
structure CusumResult where
  violations : List CViolation
  cusum_pos : List ℚ
  cusum_neg : List ℚ
deriving DecidableEq

/-- `AdvancedFaultDetector.cusum_detection(values)`. -/
def cusum_detection (d : AdvancedFaultDetector) (vs : List ℚ) : CusumResult :=
  { violations := (List.range vs.length).flatMap (cusumAt d vs),
    cusum_pos := (List.range vs.length).map (cusumPosF d vs),
    cusum_neg := (List.range vs.length).map (cusumNegF d vs) }

/-- An EWMA violation record. -/
structure EViolation where
  index : ℕ
  type : String
  severity : String
  value : ℚ
deriving DecidableEq

/-- The EWMA recursion: `ewma_0 = values[0]`,
`ewma_i = lambda * values[i] + (1 - lambda) * ewma_{i-1}`. -/
def ewmaF (d : AdvancedFaultDetector) (vs : List ℚ) : ℕ → ℚ
  | 0 => vAt vs 0
  | i + 1 => d.ewma_lambda * vAt vs (i+1) + (1 - d.ewma_lambda) * ewmaF d vs i

/-- `sqrt(lambda / (2 - lambda))` for the fixed `lambda = 0.2` stored by
`__init__`: `sqrt(0.2/1.8) = sqrt(1/9) = 1/3`, exactly rational. -/
def ewmaSigmaFactor : ℚ := 1/3

/-- Upper EWMA control limit `mean + L * sigma_ewma`. -/
def ewmaUcl (d : AdvancedFaultDetector) : ℚ := d.mean + d.ewma_L * (d.std * ewmaSigmaFactor)

/-- Lower EWMA control limit `mean - L * sigma_ewma`. -/
def ewmaLcl (d : AdvancedFaultDetector) : ℚ := d.mean - d.ewma_L * (d.std * ewmaSigmaFactor)

/-- EWMA violations at loop iteration `i` (the source loop starts at 1, so
index 0 — the seed — is never flagged). -/
def ewmaAt (d : AdvancedFaultDetector) (vs : List ℚ) (i : ℕ) : List EViolation :=
  if i = 0 then []
  else
    (if ewmaUcl d < ewmaF d vs i then
      [⟨i, "EWMA_HIGH", "WARNING", ewmaF d vs i⟩] else []) ++
    (if ewmaF d vs i < ewmaLcl d then
      [⟨i, "EWMA_LOW", "WARNING", ewmaF d vs i⟩] else [])

/-- Result of `ewma_detection`. -/
structure EwmaResult where
  violations : List EViolation
  ewma : List ℚ
  ucl : ℚ
  lcl : ℚ
deriving DecidableEq

/-- `AdvancedFaultDetector.ewma_detection(values)`. -/
def ewma_detection (d : AdvancedFaultDetector) (vs : List ℚ) : EwmaResult :=
  { violations := (List.range vs.length).flatMap (ewmaAt d vs),
    ewma := (List.range vs.length).map (ewmaF d vs),
    ucl := ewmaUcl d,
    lcl := ewmaLcl d }

/-- An anomaly record of `anomaly_detection_zscore`. -/
structure AViolation where
  index : ℕ
  type : String
  severity : String
  modified_z_score : ℚ
deriving DecidableEq

/-- The error raised on the `mad == 0` branch of `anomaly_detection_zscore`:
the source evaluates `np.zeros_len(values)`, but `numpy` has no attribute
`zeros_len`, so the call raises `AttributeError` instead of producing an
array of zeros. -/
def madErrMsg : String := "AttributeError: module numpy has no attribute zeros_len"

/-- The anomaly emitted at index `i` once `median` and `mad` are fixed:
modified z-score `0.6745 * (values[i] - median) / mad`, flagged when its
absolute value exceeds `threshold`, CRITICAL beyond 4.5. -/
def anomalyAt (vs : List ℚ) (median mad threshold : ℚ) (i : ℕ) : List AViolation :=
  if threshold < pyabs (6745/10000 * (vAt vs i - median) / mad) then
    [⟨i, "STATISTICAL_ANOMALY",
      (if 9/2 < pyabs (6745/10000 * (vAt vs i - median) / mad) then "CRITICAL" else "WARNING"),
      6745/10000 * (vAt vs i - median) / mad⟩]
  else []

/-- `AdvancedFaultDetector.anomaly_detection_zscore(values, threshold)`:
median and MAD over the whole series; when `mad > 0` each point's modified
z-score is tested, otherwise the source's `np.zeros_len(values)` raises. -/
def anomaly_detection_zscore (vs : List ℚ) (threshold : ℚ) : Except String (List AViolation) :=
  if 0 < npMedian (vs.map (fun v => pyabs (v - npMedian vs))) then
    .ok ((List.range vs.length).flatMap
      (anomalyAt vs (npMedian vs) (npMedian (vs.map (fun v => pyabs (v - npMedian vs)))) threshold))
  else .error madErrMsg

/-- A trend record of `trend_detection` (the `r_squared`, `description` and
`action` fields are presentation-only and omitted). -/
structure TViolation where
  index : ℕ
  type : String
  severity : String
  slope : ℚ
  change_in_sd : ℚ
deriving DecidableEq

/-- Trend violations at loop iteration `i` (the source loop runs for
`i ≥ window`).  `pgate wd` stands for the significance gate
`p_value < 0.05` of `scipy.stats.linregress` on the window `wd`; the
t-distribution tail is transcendental, so the gate is an oracle parameter —
every theorem below holds for an arbitrary gate. -/
def trendAt (pgate : List ℚ → Bool) (d : AdvancedFaultDetector) (vs : List ℚ)
    (window : ℕ) (i : ℕ) : List TViolation :=
  if i < window then []
  else if pgate (windowData vs i window) then
    (if 3/2 < pyabs (olsSlope (windowData vs i window) * (window : ℚ) / d.std) then
      [⟨i,
        "TREND_" ++ (if 0 < olsSlope (windowData vs i window) then "UPWARD" else "DOWNWARD"),
        (if pyabs (olsSlope (windowData vs i window) * (window : ℚ) / d.std) < 5/2
          then "WARNING" else "CRITICAL"),
        olsSlope (windowData vs i window),
        olsSlope (windowData vs i window) * (window : ℚ) / d.std⟩]
    else [])
  else []

/-- `AdvancedFaultDetector.trend_detection(values, window)`. -/
def trend_detection (pgate : List ℚ → Bool) (d : AdvancedFaultDetector) (vs : List ℚ)
    (window : ℕ) : List TViolation :=
  (List.range vs.length).flatMap (trendAt pgate d vs window)

/-- A run-rule record of `run_analysis`. -/
structure RViolation where
  index : ℕ
  type : String
  severity : String
deriving DecidableEq

/-- Number of values in `l` strictly above `m`. -/
def countAbove (m : ℚ) (l : List ℚ) : ℕ :=
  (l.filter (fun v => decide (m < v))).length

/-- Number of adjacent sign changes among consecutive differences. -/
def signChanges (l : List ℚ) : ℕ :=
  ((List.range (l.length - 1)).filter
    (fun j => decide (pysign (vAt l j) ≠ pysign (vAt l (j+1))))).length

/-- Run-rule violations at loop iteration `i` (the source loop runs for
`i ≥ 7`; its `last_9`/`above`/`below` bindings are computed but never used
by either condition, and its inner `i >= 6` / `i >= 7` guards are vacuous
under the loop bound, so they are not repeated here). -/
def runAt (d : AdvancedFaultDetector) (vs : List ℚ) (i : ℕ) : List RViolation :=
  if i < 7 then []
  else
    (if 6 ≤ countAbove d.mean (trailing vs i 7) ∨ countAbove d.mean (trailing vs i 7) ≤ 1 then
      [⟨i, "RUN_RULE_6/7", "WARNING"⟩] else []) ++
    (if 6 ≤ signChanges (npDiff (trailing vs i 8)) then
      [⟨i, "ZIGZAG_PATTERN", "WARNING"⟩] else [])

/-- `AdvancedFaultDetector.run_analysis(values)`. -/
def run_analysis (d : AdvancedFaultDetector) (vs : List ℚ) : List RViolation :=
  (List.range vs.length).flatMap (runAt d vs)

/-- The per-detector outputs collected by `comprehensive_analysis` (the
subsequent concatenation into `all_violations`, the `sort_values('index')`
call and `_generate_summary` are unreachable when the anomaly step raises,
which is the only behaviour the claims below exercise). -/
structure ComprehensiveResult where
  westgard : List WViolation
  cusum : CusumResult
  ewma : EwmaResult
  anomalies : List AViolation
  trends : List TViolation
  runs : List RViolation
deriving DecidableEq

/-- `AdvancedFaultDetector.comprehensive_analysis(values)`: runs Westgard,
CUSUM and EWMA, then `anomaly_detection_zscore` (whose exception aborts the
whole analysis, as in the source), then trend and run analysis. -/
def comprehensive_analysis (pgate : List ℚ → Bool) (d : AdvancedFaultDetector)
    (vs : List ℚ) : Except String ComprehensiveResult :=
  let westgard := extended_westgard_rules d vs
  let cusum_result := cusum_detection d vs
  let ewma_result := ewma_detection d vs
  match anomaly_detection_zscore vs (7/2) with
  | .error msg => .error msg
  | .ok anomalies =>
    let trends := trend_detection pgate d vs 10
    let runs := run_analysis d vs
    .ok ⟨westgard, cusum_result, ewma_result, anomalies, trends, runs⟩

/-- Target parameters of one analyte (`qc.parameters[analyte]`) as read by
the real-time monitor. -/
structure QCParams where
  mean : ℚ
  std : ℚ
deriving DecidableEq

/-- A violation returned by `check_westgard_violation` (the wall-clock
`time` field is dropped). -/
structure RTViolation where
  value : ℚ
  rule : String
  severity : String
  message : String
deriving DecidableEq

/-- z-score of the new point in the streaming check. -/
abbrev rtZ (p : QCParams) (nv : ℚ) : ℚ := (nv - p.mean) / p.std

/-- z-score of the most recent retained point `values[-1]`. -/
abbrev rtZPrev (p : QCParams) (values : List ℚ) : ℚ :=
  (vAt values (values.length - 1) - p.mean) / p.std

/-- Streaming rule 1-3s condition. -/
abbrev rtCond13 (p : QCParams) (nv : ℚ) : Prop := 3 < pyabs (rtZ p nv)

/-- Streaming rule 2-2s condition. -/
abbrev rtCond22 (p : QCParams) (values : List ℚ) (nv : ℚ) : Prop :=
  2 < pyabs (rtZ p nv) ∧ 2 < pyabs (rtZPrev p values) ∧
    pysign (rtZ p nv) = pysign (rtZPrev p values)

/-- Streaming rule R-4s condition. -/
abbrev rtCondR4 (p : QCParams) (values : List ℚ) (nv : ℚ) : Prop :=
  4 * p.std < pyabs (nv - vAt values (values.length - 1))

/-- `[z_score] + [z of values[-3], values[-2], values[-1]]`. -/
abbrev rtLast4z (p : QCParams) (values : List ℚ) (nv : ℚ) : List ℚ :=
  rtZ p nv :: (List.range 3).map (fun j => (vAt values (values.length - 3 + j) - p.mean) / p.std)

/-- Streaming rule 4-1s condition (source guard `len(values) >= 3`). -/
abbrev rtCond41 (p : QCParams) (values : List ℚ) (nv : ℚ) : Prop :=
  3 ≤ values.length ∧
    ((∀ q ∈ rtLast4z p values nv, 1 < q) ∨ (∀ q ∈ rtLast4z p values nv, q < -1))

/-- `[new_value] + values[-9:]`. -/
abbrev rtLast10 (values : List ℚ) (nv : ℚ) : List ℚ :=
  nv :: (List.range 9).map (fun j => vAt values (values.length - 9 + j))

/-- Streaming rule 10-x condition (source guard `len(values) >= 9`). -/
abbrev rtCond10 (p : QCParams) (values : List ℚ) (nv : ℚ) : Prop :=
  9 ≤ values.length ∧
    ((∀ v ∈ rtLast10 values nv, p.mean < v) ∨ (∀ v ∈ rtLast10 values nv, v < p.mean))

/-- `check_westgard_violation(analyte, new_value)` of the real-time monitor:
returns `None` with fewer than two retained points, otherwise the first
matching rule among 1-3s, 2-2s, R-4s, 4-1s, 10-x (the source returns inside
each check, so at most one violation is produced per point; its vacuous
`len(values) >= 1` guards on 2-2s and R-4s are subsumed by the initial
length check). -/
def check_westgard_violation (p : QCParams) (values : List ℚ) (nv : ℚ) : Option RTViolation :=
  if values.length < 2 then none
  else if rtCond13 p nv then
    some ⟨nv, "1-3s", "CRITICAL", "One control exceeds ±3 SD"⟩
  else if rtCond22 p values nv then
    some ⟨nv, "2-2s", "CRITICAL", "Two consecutive controls exceed ±2 SD"⟩
  else if rtCondR4 p values nv then
    some ⟨nv, "R-4s", "CRITICAL", "Range exceeds 4 SD"⟩
  else if rtCond41 p values nv then
    some ⟨nv, "4-1s", "WARNING", "Four consecutive controls exceed ±1 SD"⟩
  else if rtCond10 p values nv then
    some ⟨nv, "10-x", "CRITICAL", "10 consecutive controls on same side of mean"⟩
  else none

/-! ### Generic lemmas about the per-index scan pattern -/

lemma mem_ite_singleton_iff {α : Type} {c : Prop} [Decidable c] {v r : α} :
    (r ∈ if c then [v] else ([] : List α)) ↔ c ∧ r = v := by
  split <;> simp_all

lemma mem_guard_iff {α : Type} {g c : Prop} [Decidable g] [Decidable c] {v r : α} :
    (r ∈ if g then (if c then [v] else []) else ([] : List α)) ↔ g ∧ c ∧ r = v := by
  split <;> simp_all [mem_ite_singleton_iff]

lemma filter_scan_eq {α : Type} (idx : α → ℕ) (f : ℕ → List α)
    (h : ∀ j, ∀ r ∈ f j, idx r = j) :
    ∀ n i, i < n → ((List.range n).flatMap f).filter (fun r => idx r == i) = f i := by
  intro n
  induction n with
  | zero => intro i hi; omega
  | succ n ih =>
    intro i hi
    rw [List.range_succ, List.flatMap_append, List.filter_append]
    by_cases hin : i < n
    · rw [ih i hin]
      have hnil : ([n].flatMap f).filter (fun r => idx r == i) = [] := by
        rw [List.filter_eq_nil_iff]
        intro a ha
        simp only [List.flatMap_cons, List.flatMap_nil, List.append_nil] at ha
        have := h n a ha
        simp only [beq_iff_eq, this]
        omega
      rw [hnil, List.append_nil]
    · have hieq : i = n := by omega
      subst hieq
      have h1 : ((List.range i).flatMap f).filter (fun r => idx r == i) = [] := by
        rw [List.filter_eq_nil_iff]
        intro a ha
        rcases List.mem_flatMap.mp ha with ⟨j, hj, haj⟩
        have hij := h j a haj
        have hjr := List.mem_range.mp hj
        simp only [beq_iff_eq, hij]
        omega
      have h2 : ([i].flatMap f).filter (fun r => idx r == i) = f i := by
        simp only [List.flatMap_cons, List.flatMap_nil, List.append_nil]
        rw [List.filter_eq_self]
        intro a ha
        simp [h i a ha]
      rw [h1, h2, List.nil_append]

lemma filter_scan_out {α : Type} (idx : α → ℕ) (f : ℕ → List α)
    (h : ∀ j, ∀ r ∈ f j, idx r = j) (n i : ℕ) (hi : n ≤ i) :
    ((List.range n).flatMap f).filter (fun r => idx r == i) = [] := by
  rw [List.filter_eq_nil_iff]
  intro a ha
  rcases List.mem_flatMap.mp ha with ⟨j, hj, haj⟩
  have hij := h j a haj
  have hjr := List.mem_range.mp hj
  simp only [beq_iff_eq, hij]
  omega

/-! ### Reads through `take (i+1)` agree on positions up to `i` -/

lemma vAt_take (vs : List ℚ) {n j : ℕ} (h : j < n) : vAt (vs.take n) j = vAt vs j := by
  simp [vAt, List.getD_eq_getElem?_getD, List.getElem?_take, h]

lemma zscore_take (d : AdvancedFaultDetector) (vs : List ℚ) {n j : ℕ} (h : j < n) :
    zscore d (vs.take n) j = zscore d vs j := by
  unfold zscore
  rw [vAt_take vs h]

lemma trailing_take (vs : List ℚ) {i w : ℕ} (hw : w ≤ i + 1) :
    trailing (vs.take (i+1)) i w = trailing vs i w := by
  unfold trailing
  refine List.map_congr_left ?_
  intro j hj
  have hj' := List.mem_range.mp hj
  exact vAt_take vs (by omega)

lemma windowData_take (vs : List ℚ) {i w : ℕ} (hw : w ≤ i) :
    windowData (vs.take (i+1)) i w = windowData vs i w := by
  unfold windowData
  refine List.map_congr_left ?_
  intro j hj
  have hj' := List.mem_range.mp hj
  exact vAt_take vs (by omega)

lemma cusumPosF_take (d : AdvancedFaultDetector) (vs : List ℚ) (i : ℕ) :
    ∀ j, j ≤ i → cusumPosF d (vs.take (i+1)) j = cusumPosF d vs j := by
  intro j
  induction j with
  | zero =>
    intro _
    unfold cusumPosF
    rw [zscore_take d vs (show 0 < i + 1 by omega)]
  | succ k ih =>
    intro hk
    unfold cusumPosF
    rw [ih (by omega), zscore_take d vs (show k + 1 < i + 1 by omega)]

lemma cusumNegF_take (d : AdvancedFaultDetector) (vs : List ℚ) (i : ℕ) :
    ∀ j, j ≤ i → cusumNegF d (vs.take (i+1)) j = cusumNegF d vs j := by
  intro j
  induction j with
  | zero =>
    intro _
    unfold cusumNegF
    rw [zscore_take d vs (show 0 < i + 1 by omega)]
  | succ k ih =>
    intro hk
    unfold cusumNegF
    rw [ih (by omega), zscore_take d vs (show k + 1 < i + 1 by omega)]

lemma ewmaF_take (d : AdvancedFaultDetector) (vs : List ℚ) (i : ℕ) :
    ∀ j, j ≤ i → ewmaF d (vs.take (i+1)) j = ewmaF d vs j := by
  intro j
  induction j with
  | zero =>
    intro _
    unfold ewmaF
    rw [vAt_take vs (show 0 < i + 1 by omega)]
  | succ k ih =>
    intro hk
    unfold ewmaF
    rw [ih (by omega), vAt_take vs (show k + 1 < i + 1 by omega)]

/-! ### Every record emitted at loop iteration `j` carries index `j` -/

lemma westgardAt_index (d : AdvancedFaultDetector) (l : List ℚ) :
    ∀ j, ∀ r ∈ westgardAt d l j, r.index = j := by
  intro j r hr
  unfold westgardAt at hr
  simp only [List.mem_append, mem_ite_singleton_iff, mem_guard_iff] at hr
  rcases hr with h | h | h | h | h | h | h | h
  · rw [h.2]
  all_goals rw [h.2.2]

lemma cusumAt_index (d : AdvancedFaultDetector) (l : List ℚ) :
    ∀ j, ∀ r ∈ cusumAt d l j, r.index = j := by
  intro j r hr
  unfold cusumAt at hr
  simp only [List.mem_append, mem_ite_singleton_iff] at hr
  rcases hr with ⟨-, rfl⟩ | ⟨-, rfl⟩ <;> rfl

lemma ewmaAt_index (d : AdvancedFaultDetector) (l : List ℚ) :
    ∀ j, ∀ r ∈ ewmaAt d l j, r.index = j := by
  intro j r hr
  unfold ewmaAt at hr
  split at hr
  · simp at hr
  · simp only [List.mem_append, mem_ite_singleton_iff] at hr
    rcases hr with ⟨-, rfl⟩ | ⟨-, rfl⟩ <;> rfl

lemma anomalyAt_index (vs : List ℚ) (median mad threshold : ℚ) :
    ∀ j, ∀ r ∈ anomalyAt vs median mad threshold j, r.index = j := by
  intro j r hr
  unfold anomalyAt at hr
  rw [mem_ite_singleton_iff] at hr
  rw [hr.2]

lemma trendAt_index (pgate : List ℚ → Bool) (d : AdvancedFaultDetector) (l : List ℚ)
    (w : ℕ) : ∀ j, ∀ r ∈ trendAt pgate d l w j, r.index = j := by
  intro j r hr
  unfold trendAt at hr
  split at hr
  · simp at hr
  · split at hr
    · rw [mem_ite_singleton_iff] at hr
      rw [hr.2]
    · simp at hr

lemma runAt_index (d : AdvancedFaultDetector) (l : List ℚ) :
    ∀ j, ∀ r ∈ runAt d l j, r.index = j := by
  intro j r hr
  unfold runAt at hr
  split at hr
  · simp at hr
  · simp only [List.mem_append, mem_ite_singleton_iff] at hr
    rcases hr with ⟨-, rfl⟩ | ⟨-, rfl⟩ <;> rfl

/-! ### Per-iteration output is unchanged by truncation just after `i` -/

lemma westgardAt_take (d : AdvancedFaultDetector) (vs : List ℚ) (i : ℕ) :
    westgardAt d (vs.take (i+1)) i = westgardAt d vs i := by
  unfold westgardAt
  congr 1
  · rw [zscore_take d vs (show i < i + 1 by omega)]
  congr 1
  · by_cases h0 : 0 < i
    · rw [if_pos h0, if_pos h0, zscore_take d vs (show i < i + 1 by omega),
        zscore_take d vs (show i - 1 < i + 1 by omega)]
    · rw [if_neg h0, if_neg h0]
  congr 1
  · by_cases h0 : 0 < i
    · rw [if_pos h0, if_pos h0, zscore_take d vs (show i < i + 1 by omega),
        vAt_take vs (show i < i + 1 by omega), vAt_take vs (show i - 1 < i + 1 by omega)]
    · rw [if_neg h0, if_neg h0]
  congr 1
  · by_cases h3 : 3 ≤ i
    · rw [if_pos h3, if_pos h3, trailing_take vs (show 4 ≤ i + 1 by omega),
        zscore_take d vs (show i < i + 1 by omega)]
    · rw [if_neg h3, if_neg h3]
  congr 1
  · by_cases h9 : 9 ≤ i
    · rw [if_pos h9, if_pos h9, trailing_take vs (show 10 ≤ i + 1 by omega),
        zscore_take d vs (show i < i + 1 by omega)]
    · rw [if_neg h9, if_neg h9]
  congr 1
  · by_cases h6 : 6 ≤ i
    · rw [if_pos h6, if_pos h6, trailing_take vs (show 7 ≤ i + 1 by omega),
        zscore_take d vs (show i < i + 1 by omega)]
    · rw [if_neg h6, if_neg h6]
  congr 1
  · by_cases h7 : 7 ≤ i
    · rw [if_pos h7, if_pos h7, trailing_take vs (show 8 ≤ i + 1 by omega),
        zscore_take d vs (show i < i + 1 by omega)]
    · rw [if_neg h7, if_neg h7]
  by_cases h5 : 5 ≤ i
  · rw [if_pos h5, if_pos h5, trailing_take vs (show 6 ≤ i + 1 by omega),
      zscore_take d vs (show i < i + 1 by omega)]
  · rw [if_neg h5, if_neg h5]

lemma cusumAt_take (d : AdvancedFaultDetector) (vs : List ℚ) (i : ℕ) :
    cusumAt d (vs.take (i+1)) i = cusumAt d vs i := by
  unfold cusumAt
  rw [cusumPosF_take d vs i i le_rfl, cusumNegF_take d vs i i le_rfl]

lemma ewmaAt_take (d : AdvancedFaultDetector) (vs : List ℚ) (i : ℕ) :
    ewmaAt d (vs.take (i+1)) i = ewmaAt d vs i := by
  unfold ewmaAt
  rw [ewmaF_take d vs i i le_rfl]

lemma trendAt_take (pgate : List ℚ → Bool) (d : AdvancedFaultDetector) (vs : List ℚ)
    (w i : ℕ) : trendAt pgate d (vs.take (i+1)) w i = trendAt pgate d vs w i := by
  unfold trendAt
  by_cases hw : i < w
  · rw [if_pos hw, if_pos hw]
  · rw [if_neg hw, if_neg hw, windowData_take vs (show w ≤ i by omega)]

lemma runAt_take (d : AdvancedFaultDetector) (vs : List ℚ) (i : ℕ) :
    runAt d (vs.take (i+1)) i = runAt d vs i := by
  unfold runAt
  by_cases h7 : i < 7
  · rw [if_pos h7, if_pos h7]
  · rw [if_neg h7, if_neg h7, trailing_take vs (show 7 ≤ i + 1 by omega),
      trailing_take vs (show 8 ≤ i + 1 by omega)]

lemma scan_filter_take {α : Type} (idx : α → ℕ) (F : List ℚ → ℕ → List α)
    (hidx : ∀ (l : List ℚ) j, ∀ r ∈ F l j, idx r = j)
    (hstab : ∀ (l : List ℚ) i, F (l.take (i+1)) i = F l i)
    (vs : List ℚ) (i : ℕ) (hi : i < vs.length) :
    ((List.range (vs.take (i+1)).length).flatMap (F (vs.take (i+1)))).filter
        (fun r => idx r == i)
      = ((List.range vs.length).flatMap (F vs)).filter (fun r => idx r == i) := by
  have hlen : (vs.take (i+1)).length = i + 1 := by
    rw [List.length_take]
    omega
  rw [hlen, filter_scan_eq idx _ (hidx _) (i+1) i (by omega),
    filter_scan_eq idx _ (hidx vs) vs.length i hi, hstab]

/-! ### Constant series: median, MAD, CUSUM -/

lemma pyabs_eq_abs (q : ℚ) : pyabs q = |q| := by
  unfold pyabs
  split
  · rw [abs_of_neg ‹_›]
  · rw [abs_of_nonneg (le_of_not_lt ‹_›)]

lemma pymax_zero_nonneg (q : ℚ) : 0 ≤ pymax 0 q := by
  unfold pymax
  split
  · exact le_of_lt ‹_›
  · exact le_rfl

lemma insertSorted_replicate (k : ℕ) (c : ℚ) :
    insertSorted c (List.replicate k c) = List.replicate (k+1) c := by
  cases k with
  | zero => rfl
  | succ m =>
    rw [List.replicate_succ, insertSorted, if_pos (le_refl c), ← List.replicate_succ,
      ← List.replicate_succ]

lemma sortAsc_replicate (n : ℕ) (c : ℚ) :
    sortAsc (List.replicate n c) = List.replicate n c := by
  induction n with
  | zero => rfl
  | succ k ih =>
    rw [List.replicate_succ, sortAsc, ih, insertSorted_replicate, List.replicate_succ]

lemma vAt_replicate (n j : ℕ) (c : ℚ) :
    vAt (List.replicate n c) j = if j < n then c else 0 := by
  rw [vAt, List.getD_eq_getElem?_getD, List.getElem?_replicate]
  split <;> rfl

lemma npMedian_replicate (n : ℕ) (c : ℚ) (hn : n ≠ 0) :
    npMedian (List.replicate n c) = c := by
  unfold npMedian
  rw [List.length_replicate, sortAsc_replicate, if_neg hn]
  by_cases hodd : n % 2 = 1
  · rw [if_pos hodd, vAt_replicate, if_pos (by omega)]
  · rw [if_neg hodd, vAt_replicate, vAt_replicate, if_pos (by omega), if_pos (by omega)]
    ring

/-- On a constant series the MAD is 0, so `anomaly_detection_zscore` takes the
branch whose `np.zeros_len(values)` raises `AttributeError`. -/
lemma anomaly_const_error (n : ℕ) (c t : ℚ) :
    anomaly_detection_zscore (List.replicate n c) t = .error madErrMsg := by
  unfold anomaly_detection_zscore
  rcases Nat.eq_zero_or_pos n with hn | hn
  · subst hn
    rfl
  · rw [npMedian_replicate n c (by omega), List.map_replicate, sub_self]
    have h0 : pyabs 0 = 0 := rfl
    rw [h0, npMedian_replicate n 0 (by omega), if_neg (lt_irrefl 0)]

/-! ### Claim theorems -/

/-- Claim C1 (status: code_bug).  Evaluation of the code at the claimed
input: for every detector parameterisation and every significance oracle,
`comprehensive_analysis` on the series of 20 points all exactly equal to
`mean` does not produce an in-control summary — it propagates the
`AttributeError` raised inside `anomaly_detection_zscore` (the source's
`np.zeros_len` does not exist in numpy), because the constant series has
MAD = 0. -/
theorem C1_constant_series_raises (pgate : List ℚ → Bool) (mean std : ℚ)
    (sens : Sensitivity) :
    comprehensive_analysis pgate (mkDetector mean std sens) (List.replicate 20 mean)
      = .error madErrMsg := by
  unfold comprehensive_analysis
  rw [anomaly_const_error 20 mean (7/2)]

/-- Claim C2 (status: code_bug).  Evaluation of the code at the claimed
inputs: on every series with all values identical (hence median absolute
deviation 0) and every threshold, `anomaly_detection_zscore` does not return
zero anomalies — it raises `AttributeError`, since the `mad == 0` branch
evaluates `np.zeros_len(values)` and numpy has no attribute `zeros_len`. -/
theorem C2_mad_zero_raises (n : ℕ) (c t : ℚ) :
    anomaly_detection_zscore (List.replicate n c) t = .error madErrMsg :=
  anomaly_const_error n c t

/-- Claim C3, counterexample.  Constructing a detector with `std = -1 ≤ 0`
does not fail fast: the constructor stores the invalid parameter unchanged
and a subsequent Westgard analysis proceeds normally, computing z-scores
with the negative standard deviation (here `z = -5` for value 5 about
mean 0). -/
theorem C3_cex_no_validation :
    (mkDetector 0 (-1) .medium).std = -1 ∧
    extended_westgard_rules (mkDetector 0 (-1) .medium) [5] =
      [⟨0, "1-3s", "CRITICAL", -5⟩] := by
  constructor
  · rfl
  · norm_num [extended_westgard_rules, westgardAt, zscore, vAt, pyabs, mkDetector,
      List.range_succ]

/-- Claim C3 as amended (status: corrected): construction with `std ≤ 0` is
not rejected — `__init__` performs no validation and stores `mean` and `std`
unchanged (in particular it never clamps them), and the analysis methods
proceed with the stored values. -/
theorem C3_amended_params_stored (mean std : ℚ) (sens : Sensitivity) (_h : std ≤ 0) :
    (mkDetector mean std sens).mean = mean ∧ (mkDetector mean std sens).std = std :=
  ⟨rfl, rfl⟩

/-- Witness for `C3_amended_params_stored` at `mean = 0`, `std = -1`. -/
theorem C3_amended_witness :
    (mkDetector 0 (-1) .medium).mean = 0 ∧ (mkDetector 0 (-1) .medium).std = -1 :=
  C3_amended_params_stored 0 (-1) .medium (by norm_num)

/-- Series refuting claim C4 for the robust anomaly detector. -/
def c4series : List ℚ := [0, 1, 100, 101, 100, 101, 100]

/-- Claim C4, counterexample.  The robust anomaly detector consults data
beyond position `i`: on `c4series` truncated just after index 2 the point
at index 2 is flagged (median 1, MAD 1, modified z-score `0.6745·99`),
while on the full series it is not (median 100, MAD 1, modified z-score 0) —
so `evaluate(series[:i+1])[i] ≠ evaluate(series)[i]` at `i = 2`. -/
theorem C4_cex_anomaly_truncation :
    (anomaly_detection_zscore (c4series.take 3) (7/2)).map
        (fun l => l.filter (fun a => a.index == 2)) =
      .ok [⟨2, "STATISTICAL_ANOMALY", "CRITICAL", 133551/2000⟩] ∧
    (anomaly_detection_zscore c4series (7/2)).map
        (fun l => l.filter (fun a => a.index == 2)) = .ok [] ∧
    (anomaly_detection_zscore (c4series.take 3) (7/2)).map
        (fun l => l.filter (fun a => a.index == 2)) ≠
      (anomaly_detection_zscore c4series (7/2)).map
        (fun l => l.filter (fun a => a.index == 2)) := by
  have h1 : (anomaly_detection_zscore (c4series.take 3) (7/2)).map
      (fun l => l.filter (fun a => a.index == 2)) =
      .ok [⟨2, "STATISTICAL_ANOMALY", "CRITICAL", 133551/2000⟩] := by
    norm_num [anomaly_detection_zscore, anomalyAt, npMedian, sortAsc, insertSorted,
      vAt, pyabs, c4series, List.range_succ, Except.map, List.filter]
  have h2 : (anomaly_detection_zscore c4series (7/2)).map
      (fun l => l.filter (fun a => a.index == 2)) = .ok [] := by
    norm_num [anomaly_detection_zscore, anomalyAt, npMedian, sortAsc, insertSorted,
      vAt, pyabs, c4series, List.range_succ, Except.map, List.filter]
    rfl
  refine ⟨h1, h2, ?_⟩
  rw [h1, h2]
  simp

/-- Claim C4 as amended (status: corrected): all detectors other than the
robust anomaly detector are truncation-invariant — for every detector state,
series and index `i < length`, the findings at index `i` of the Westgard,
CUSUM, EWMA, trend and run detectors agree between `series[:i+1]` and the
full series.  (The robust anomaly detector computes median/MAD over the
whole series and is excluded; see `C4_cex_anomaly_truncation`.) -/
theorem C4_truncation_other_detectors (d : AdvancedFaultDetector)
    (pgate : List ℚ → Bool) (vs : List ℚ) (i : ℕ) (hi : i < vs.length) :
    (extended_westgard_rules d (vs.take (i+1))).filter (fun r => r.index == i)
        = (extended_westgard_rules d vs).filter (fun r => r.index == i) ∧
    (cusum_detection d (vs.take (i+1))).violations.filter (fun r => r.index == i)
        = (cusum_detection d vs).violations.filter (fun r => r.index == i) ∧
    (ewma_detection d (vs.take (i+1))).violations.filter (fun r => r.index == i)
        = (ewma_detection d vs).violations.filter (fun r => r.index == i) ∧
    (trend_detection pgate d (vs.take (i+1)) 10).filter (fun r => r.index == i)
        = (trend_detection pgate d vs 10).filter (fun r => r.index == i) ∧
    (run_analysis d (vs.take (i+1))).filter (fun r => r.index == i)
        = (run_analysis d vs).filter (fun r => r.index == i) := by
  refine ⟨?_, ?_, ?_, ?_, ?_⟩
  · exact scan_filter_take (fun r => r.index) (fun l j => westgardAt d l j)
      (fun l => westgardAt_index d l) (fun l i' => westgardAt_take d l i') vs i hi
  · exact scan_filter_take (fun r => r.index) (fun l j => cusumAt d l j)
      (fun l => cusumAt_index d l) (fun l i' => cusumAt_take d l i') vs i hi
  · exact scan_filter_take (fun r => r.index) (fun l j => ewmaAt d l j)
      (fun l => ewmaAt_index d l) (fun l i' => ewmaAt_take d l i') vs i hi
  · exact scan_filter_take (fun r => r.index) (fun l j => trendAt pgate d l 10 j)
      (fun l => trendAt_index pgate d l 10) (fun l i' => trendAt_take pgate d l 10 i') vs i hi
  · exact scan_filter_take (fun r => r.index) (fun l j => runAt d l j)
      (fun l => runAt_index d l) (fun l i' => runAt_take d l i') vs i hi

/-- Witness for `C4_truncation_other_detectors` at a concrete detector,
oracle, series and index. -/
theorem C4_truncation_witness :
    (extended_westgard_rules (mkDetector 0 1 .medium) (([0, 1, 2] : List ℚ).take 2)).filter
        (fun r => r.index == 1)
        = (extended_westgard_rules (mkDetector 0 1 .medium) [0, 1, 2]).filter
        (fun r => r.index == 1) ∧
    (cusum_detection (mkDetector 0 1 .medium) (([0, 1, 2] : List ℚ).take 2)).violations.filter
        (fun r => r.index == 1)
        = (cusum_detection (mkDetector 0 1 .medium) [0, 1, 2]).violations.filter
        (fun r => r.index == 1) ∧
    (ewma_detection (mkDetector 0 1 .medium) (([0, 1, 2] : List ℚ).take 2)).violations.filter
        (fun r => r.index == 1)
        = (ewma_detection (mkDetector 0 1 .medium) [0, 1, 2]).violations.filter
        (fun r => r.index == 1) ∧
    (trend_detection (fun _ => true) (mkDetector 0 1 .medium) (([0, 1, 2] : List ℚ).take 2) 10).filter
        (fun r => r.index == 1)
        = (trend_detection (fun _ => true) (mkDetector 0 1 .medium) [0, 1, 2] 10).filter
        (fun r => r.index == 1) ∧
    (run_analysis (mkDetector 0 1 .medium) (([0, 1, 2] : List ℚ).take 2)).filter
        (fun r => r.index == 1)
        = (run_analysis (mkDetector 0 1 .medium) [0, 1, 2]).filter
        (fun r => r.index == 1) :=
  C4_truncation_other_detectors (mkDetector 0 1 .medium) (fun _ => true) [0, 1, 2] 1
    (by norm_num)

/-- Claim C7 (status: confirmed).  For every mean, every `std > 0`, every
sensitivity, series, and index `i` in range, the Westgard evaluator emits a
1-3s violation at `i` iff `|values[i] - mean| > 3*std` — strict inequality,
so a value exactly at `mean ± 3*std` does not trigger and any value strictly
beyond does. -/
theorem C7_rule13_iff (mean std : ℚ) (sens : Sensitivity) (vs : List ℚ) (i : ℕ)
    (hstd : 0 < std) (hi : i < vs.length) :
    (extended_westgard_rules (mkDetector mean std sens) vs).filter
        (fun r => r.index == i && r.rule == "1-3s") ≠ [] ↔
      3 * std < pyabs (vAt vs i - mean) := by
  have hz : zscore (mkDetector mean std sens) vs i = (vAt vs i - mean) / std := rfl
  have hiff : 3 < pyabs (zscore (mkDetector mean std sens) vs i) ↔
      3 * std < pyabs (vAt vs i - mean) := by
    rw [hz, pyabs_eq_abs, pyabs_eq_abs, abs_div, abs_of_pos hstd, lt_div_iff₀ hstd]
  rw [ne_eq, List.filter_eq_nil_iff]
  push_neg
  constructor
  · rintro ⟨a, ha, hp⟩
    simp only [Bool.and_eq_true, beq_iff_eq] at hp
    obtain ⟨hidx, hrule⟩ := hp
    unfold extended_westgard_rules at ha
    rcases List.mem_flatMap.mp ha with ⟨j, hjr, haj⟩
    have hji : j = i := by
      rw [← westgardAt_index _ _ j a haj, hidx]
    subst hji
    unfold westgardAt at haj
    simp only [List.mem_append, mem_ite_singleton_iff, mem_guard_iff] at haj
    rcases haj with h | h | h | h | h | h | h | h
    · obtain ⟨hc, rfl⟩ := h
      exact hiff.mp hc
    all_goals rw [h.2.2] at hrule
    all_goals simp at hrule
  · intro h
    refine ⟨⟨i, "1-3s", "CRITICAL", zscore (mkDetector mean std sens) vs i⟩, ?_, by simp⟩
    unfold extended_westgard_rules
    refine List.mem_flatMap.mpr ⟨i, List.mem_range.mpr hi, ?_⟩
    unfold westgardAt
    refine List.mem_append_left _ ?_
    rw [mem_ite_singleton_iff]
    exact ⟨hiff.mpr h, rfl⟩

/-- Witness for `C7_rule13_iff`: mean 0, std 1, series `[4]`, index 0. -/
theorem C7_rule13_witness :
    ((extended_westgard_rules (mkDetector 0 1 .medium) [4]).filter
        (fun r => r.index == 0 && r.rule == "1-3s") ≠ [] ↔
      3 * 1 < pyabs (vAt [4] 0 - 0)) :=
  C7_rule13_iff 0 1 .medium [4] 0 (by norm_num) (by norm_num)

/-- Claim C8 (status: confirmed).  Both CUSUM running statistics are
non-negative at every index for every input series, and on a series whose
every value equals the mean both statistics are 0 everywhere and the CUSUM
detector emits no violations. -/
theorem C8_cusum_nonneg_and_constant (mean std : ℚ) (sens : Sensitivity) :
    (∀ (vs : List ℚ) (i : ℕ),
        0 ≤ cusumPosF (mkDetector mean std sens) vs i ∧
        0 ≤ cusumNegF (mkDetector mean std sens) vs i) ∧
    (∀ n : ℕ,
        (cusum_detection (mkDetector mean std sens) (List.replicate n mean)).cusum_pos
          = List.replicate n 0 ∧
        (cusum_detection (mkDetector mean std sens) (List.replicate n mean)).cusum_neg
          = List.replicate n 0 ∧
        (cusum_detection (mkDetector mean std sens) (List.replicate n mean)).violations
          = []) := by
  have hz : ∀ n i, i < n →
      zscore (mkDetector mean std sens) (List.replicate n mean) i = 0 := by
    intro n i hi
    unfold zscore
    rw [vAt_replicate, if_pos hi]
    show (mean - mean) / std = 0
    rw [sub_self, zero_div]
  have hpos0 : ∀ n i, i < n →
      cusumPosF (mkDetector mean std sens) (List.replicate n mean) i = 0 := by
    intro n i
    induction i with
    | zero =>
      intro hi
      unfold cusumPosF
      rw [hz n 0 hi]
      norm_num [pymax, mkDetector]
    | succ k ih =>
      intro hi
      unfold cusumPosF
      rw [ih (by omega), hz n (k+1) hi]
      norm_num [pymax, mkDetector]
  have hneg0 : ∀ n i, i < n →
      cusumNegF (mkDetector mean std sens) (List.replicate n mean) i = 0 := by
    intro n i
    induction i with
    | zero =>
      intro hi
      unfold cusumNegF
      rw [hz n 0 hi]
      norm_num [pymax, mkDetector]
    | succ k ih =>
      intro hi
      unfold cusumNegF
      rw [ih (by omega), hz n (k+1) hi]
      norm_num [pymax, mkDetector]
  refine ⟨fun vs i => ⟨?_, ?_⟩, fun n => ⟨?_, ?_, ?_⟩⟩
  · cases i with
    | zero => unfold cusumPosF; exact pymax_zero_nonneg _
    | succ k => unfold cusumPosF; exact pymax_zero_nonneg _
  · cases i with
    | zero => unfold cusumNegF; exact pymax_zero_nonneg _
    | succ k => unfold cusumNegF; exact pymax_zero_nonneg _
  · show (List.range (List.replicate n mean).length).map _ = _
    rw [List.length_replicate, List.eq_replicate_iff]
    refine ⟨by simp, ?_⟩
    intro b hb
    rcases List.mem_map.mp hb with ⟨j, hj, rfl⟩
    exact hpos0 n j (List.mem_range.mp hj)
  · show (List.range (List.replicate n mean).length).map _ = _
    rw [List.length_replicate, List.eq_replicate_iff]
    refine ⟨by simp, ?_⟩
    intro b hb
    rcases List.mem_map.mp hb with ⟨j, hj, rfl⟩
    exact hneg0 n j (List.mem_range.mp hj)
  · show (List.range (List.replicate n mean).length).flatMap _ = _
    rw [List.length_replicate, List.flatMap_eq_nil_iff]
    intro j hj
    unfold cusumAt
    rw [hpos0 n j (List.mem_range.mp hj), hneg0 n j (List.mem_range.mp hj)]
    norm_num [mkDetector]

/-- Series refuting the severity boundary of claim C9: a perfect line of
slope 1/4 in the window ending before index 10 gives normalized change
exactly `slope*window/std = 5/2`. -/
def c9series : List ℚ := [0, 1/4, 1/2, 3/4, 1, 5/4, 3/2, 7/4, 2, 9/4, 0]

/-- Claim C9, counterexample.  At `|change| = 5/2` exactly (here slope 1/4,
window 10, std 1; the window is a perfect line, for which scipy's p-value is
0, modelled by the constant-true gate) the emitted violation has severity
CRITICAL, although `|change| > 2.5` is false — the claim's "CRITICAL only
when |change| > 2.5" puts the boundary on the wrong side (the code tests
`abs(change) < 2.5` for WARNING, so CRITICAL at `|change| ≥ 2.5`). -/
theorem C9_cex_boundary_critical :
    (trend_detection (fun _ => true) (mkDetector 0 1 .medium) c9series 10).filter
        (fun t => t.index == 10) =
      [⟨10, "TREND_UPWARD", "CRITICAL", 1/4, 5/2⟩] ∧
    ¬((5 : ℚ)/2 < pyabs (5/2)) := by
  constructor
  · norm_num [trend_detection, trendAt, windowData, olsSlope, vAt, pyabs, mkDetector,
      c9series, List.range_succ, List.filter]
    rfl
  · norm_num [pyabs]

/-- Claim C9 as amended (status: corrected).  For every significance oracle,
detector parameters, series and index: the trend detector's findings at `i`
are nonempty exactly when `i ≥ window`, `i` is in range, the significance
gate (`p < 0.05`) passes, and `|change| > 1.5` with `change =
slope*window/std`; the severity is WARNING when `1.5 < |change| < 2.5` and
CRITICAL when `|change| ≥ 2.5` (boundary included), directioned
TREND_UPWARD when the slope is positive and TREND_DOWNWARD otherwise. -/
theorem C9_trend_gates (pgate : List ℚ → Bool) (mean std : ℚ) (sens : Sensitivity)
    (vs : List ℚ) (i : ℕ) :
    (trend_detection pgate (mkDetector mean std sens) vs 10).filter (fun t => t.index == i) =
      (if 10 ≤ i ∧ i < vs.length ∧ pgate (windowData vs i 10) = true ∧
          3/2 < pyabs (olsSlope (windowData vs i 10) * 10 / std) then
        [⟨i, "TREND_" ++ (if 0 < olsSlope (windowData vs i 10) then "UPWARD" else "DOWNWARD"),
          (if pyabs (olsSlope (windowData vs i 10) * 10 / std) < 5/2
            then "WARNING" else "CRITICAL"),
          olsSlope (windowData vs i 10), olsSlope (windowData vs i 10) * 10 / std⟩]
      else []) := by
  have hcast : ((10 : ℕ) : ℚ) = (10 : ℚ) := by norm_num
  by_cases hi : i < vs.length
  · rw [show (trend_detection pgate (mkDetector mean std sens) vs 10).filter
        (fun t => t.index == i) = trendAt pgate (mkDetector mean std sens) vs 10 i from
      filter_scan_eq _ _ (trendAt_index pgate _ vs 10) vs.length i hi]
    unfold trendAt
    rw [show (mkDetector mean std sens).std = std from rfl, hcast]
    by_cases h10 : 10 ≤ i
    · rw [if_neg (show ¬ i < 10 by omega)]
      by_cases hp : pgate (windowData vs i 10) = true
      · rw [if_pos hp]
        by_cases hc : 3/2 < pyabs (olsSlope (windowData vs i 10) * 10 / std)
        · have hall : 10 ≤ i ∧ i < vs.length ∧ pgate (windowData vs i 10) = true ∧
              3/2 < pyabs (olsSlope (windowData vs i 10) * 10 / std) := ⟨h10, hi, hp, hc⟩
          rw [if_pos hc, if_pos hall]
        · rw [if_neg hc, if_neg (by tauto)]
      · rw [if_neg hp, if_neg (by tauto)]
    · rw [if_pos (show i < 10 by omega), if_neg (by rintro ⟨h1, -, -, -⟩; omega)]
  · unfold trend_detection
    rw [filter_scan_out _ _ (trendAt_index pgate _ vs 10) vs.length i (by omega),
      if_neg (by rintro ⟨-, h2, -, -⟩; omega)]

/-- Claim C6, counterexample.  The streaming check of the real-time monitor
(`check_westgard_violation`) does evaluate a Westgard rule outside
{1-3s, 2-2s, R-4s}: with retained history `[1.5σ, 1.5σ, 1.5σ]` and a new
point at `1.5σ` it returns a 4-1s violation. -/
theorem C6_cex_streaming_emits_41s :
    (check_westgard_violation ⟨0, 1⟩ [3/2, 3/2, 3/2] (3/2)).map (fun r => r.rule)
      = some "4-1s" ∧
    ("4-1s" : String) ∉ (["1-3s", "2-2s", "R-4s"] : List String) := by
  constructor
  · norm_num [check_westgard_violation, rtCond13, rtCond22, rtCondR4, rtCond41, rtCond10,
      rtLast4z, rtLast10, rtZ, rtZPrev, vAt, pyabs, pysign, List.range_succ]
  · decide

/-- Claim C6 as amended (status: corrected).  On each new point the
streaming check evaluates exactly the Westgard rules 1-3s, 2-2s, R-4s,
4-1s and 10-x against the retained trailing state (returning the first
match): any violation it returns carries one of those five rule labels —
it evaluates none of 7-T, 6-x, 8-x and none of the full-series detectors
(nor any CUSUM/EWMA update, which the real-time monitor does not keep). -/
theorem C6_amended_rule_subset (p : QCParams) (values : List ℚ) (nv : ℚ)
    (r : RTViolation) (h : check_westgard_violation p values nv = some r) :
    r.rule ∈ (["1-3s", "2-2s", "R-4s", "4-1s", "10-x"] : List String) := by
  unfold check_westgard_violation at h
  split_ifs at h
  all_goals first
    | exact Option.noConfusion h
    | (injection h with h2; subst h2; simp)

/-- Witness for `C6_amended_rule_subset` at the 4-1s instance. -/
theorem C6_amended_witness :
    (⟨3/2, "4-1s", "WARNING", "Four consecutive controls exceed ±1 SD"⟩ : RTViolation).rule ∈
      (["1-3s", "2-2s", "R-4s", "4-1s", "10-x"] : List String) :=
  C6_amended_rule_subset ⟨0, 1⟩ [3/2, 3/2, 3/2] (3/2) _
    (by norm_num [check_westgard_violation, rtCond13, rtCond22, rtCondR4, rtCond41,
      rtCond10, rtLast4z, rtLast10, rtZ, rtZPrev, vAt, pyabs, pysign, List.range_succ])

/-- Claim C10 (status: confirmed).  The streaming check returns at most one
violation per new point (it is `Option`-valued): the rules are tried in the
fixed order 1-3s, 2-2s, R-4s, 4-1s, 10-x and the first matching rule is
returned, masking any later rule that also holds; and whenever the retained
history has fewer than 2 points it returns `none` for every new value,
however large its z-score. -/
theorem C10_streaming_first_match (p : QCParams) (values : List ℚ) (nv : ℚ) :
    (values.length < 2 → check_westgard_violation p values nv = none) ∧
    (2 ≤ values.length → rtCond13 p nv →
      (check_westgard_violation p values nv).map (fun r => r.rule) = some "1-3s") ∧
    (2 ≤ values.length → ¬rtCond13 p nv → rtCond22 p values nv →
      (check_westgard_violation p values nv).map (fun r => r.rule) = some "2-2s") ∧
    (2 ≤ values.length → ¬rtCond13 p nv → ¬rtCond22 p values nv → rtCondR4 p values nv →
      (check_westgard_violation p values nv).map (fun r => r.rule) = some "R-4s") ∧
    (2 ≤ values.length → ¬rtCond13 p nv → ¬rtCond22 p values nv → ¬rtCondR4 p values nv →
      rtCond41 p values nv →
      (check_westgard_violation p values nv).map (fun r => r.rule) = some "4-1s") ∧
    (2 ≤ values.length → ¬rtCond13 p nv → ¬rtCond22 p values nv → ¬rtCondR4 p values nv →
      ¬rtCond41 p values nv → rtCond10 p values nv →
      (check_westgard_violation p values nv).map (fun r => r.rule) = some "10-x") ∧
    (2 ≤ values.length → ¬rtCond13 p nv → ¬rtCond22 p values nv → ¬rtCondR4 p values nv →
      ¬rtCond41 p values nv → ¬rtCond10 p values nv →
      check_westgard_violation p values nv = none) := by
  unfold check_westgard_violation
  refine ⟨?_, ?_, ?_, ?_, ?_, ?_, ?_⟩
  · intro h
    rw [if_pos h]
  · intro h h13
    rw [if_neg (by omega), if_pos h13]
    rfl
  · intro h h13 h22
    rw [if_neg (by omega), if_neg h13, if_pos h22]
    rfl
  · intro h h13 h22 hR4
    rw [if_neg (by omega), if_neg h13, if_neg h22, if_pos hR4]
    rfl
  · intro h h13 h22 hR4 h41
    rw [if_neg (by omega), if_neg h13, if_neg h22, if_neg hR4, if_pos h41]
    rfl
  · intro h h13 h22 hR4 h41 h10
    rw [if_neg (by omega), if_neg h13, if_neg h22, if_neg hR4, if_neg h41, if_pos h10]
    rfl
  · intro h h13 h22 hR4 h41 h10
    rw [if_neg (by omega), if_neg h13, if_neg h22, if_neg hR4, if_neg h41, if_neg h10]

/-- Witness for `C10_streaming_first_match`: with no retained history even a
value 100 standard deviations out is not flagged. -/
theorem C10_streaming_witness :
    check_westgard_violation ⟨0, 1⟩ [] 100 = none :=
  (C10_streaming_first_match ⟨0, 1⟩ [] 100).1 (by norm_num)

end LabQC
